import Mathlib

/-!
Verification of the Air Tracker flight-analytics reporting layer.

The program is a read-only dashboard over three relational tables
(`airports`, `aircraft`, `flights`) stored in SQLite.  This file gives a
shallow embedding of the data model and of the queries the dashboard
issues: the Flight Explorer filter-to-query composer and its execution
semantics, the filter domain resolvers, and the fixed catalog of eleven
aggregate queries, with SQLite join/NULL/ordering semantics made explicit
(a NULL sorts before every string, `NULL = x` is not satisfied, a LEFT
JOIN with no match produces a single all-NULL right side, an inner JOIN
drops unmatched rows).
-/

/-! ## Data model

Nullable columns are `Option`-typed.  Latitude and longitude are floating
point and are used only for map rendering, so they are not modelled. -/

structure Airport where
  icao_code : String
  iata_code : String
  name : String
  city : String
  country : String
  timezone : String
deriving DecidableEq

structure Aircraft where
  aircraft_reg : String
  aircraft_model : String
  manufacturer : String
deriving DecidableEq

structure Flight where
  flight_id : Nat
  flight_number : String
  airline_name : String
  aircraft_reg : Option String
  origin_icao : Option String
  dest_icao : Option String
  scheduled_dep : Option String
  scheduled_arr : Option String
  actual_arr : Option String
  status : String
  delay_dep : Option Int
  delay_arr : Option Int
deriving DecidableEq

structure DB where
  airports : List Airport
  aircraft : List Aircraft
  flights : List Flight
deriving DecidableEq

/-! ## SQLite text ordering

SQLite compares TEXT values with the BINARY collation: bytewise
comparison, which on the character lists of these ASCII columns is the
lexicographic order by code point.  A NULL orders before every TEXT
value. -/

def charListLe : List Char → List Char → Bool
  | [], _ => true
  | _ :: _, [] => false
  | c :: cs, d :: ds =>
    if c.toNat < d.toNat then true
    else if d.toNat < c.toNat then false
    else charListLe cs ds

/-- Lexicographic order on strings (the SQLite BINARY collation). -/
def strLe (a b : String) : Prop := charListLe a.data b.data = true

instance instDecStrLe : DecidableRel strLe :=
  fun a b => inferInstanceAs (Decidable (charListLe a.data b.data = true))

/-- Order on a nullable TEXT column: NULL sorts before every string. -/
def textLe (a b : Option String) : Prop :=
  match a, b with
  | none, _ => True
  | some _, none => False
  | some x, some y => strLe x y

instance instDecTextLe : DecidableRel textLe := fun a b =>
  match a, b with
  | none, _ => isTrue trivial
  | some _, none => isFalse (fun h => h)
  | some x, some y => inferInstanceAs (Decidable (strLe x y))

/-! ## Filter domain resolver (Flight Explorer selectors)

Each selector issues `SELECT DISTINCT <col> FROM <table> ORDER BY <col>`
afresh and prepends the `"All"` sentinel to the returned value list. -/

def allSentinel : String := "All"

/-- `SELECT DISTINCT x ... ORDER BY x` on a TEXT column. -/
def distinctSorted (l : List String) : List String :=
  List.insertionSort strLe l.dedup

def airlineOptions (db : DB) : List String :=
  allSentinel :: distinctSorted (db.flights.map (fun f => f.airline_name))

def statusOptions (db : DB) : List String :=
  allSentinel :: distinctSorted (db.flights.map (fun f => f.status))

def originOptions (db : DB) : List String :=
  allSentinel :: distinctSorted (db.airports.map (fun a => a.iata_code))

/-! ## Flight Explorer: filter-to-query composer -/

/-- The three selectbox values; `"All"` means no predicate. -/
structure Selection where
  airline : String
  status : String
  origin : String
deriving DecidableEq

def explorerBaseQuery : String :=
"SELECT
    f.flight_number,
    f.airline_name,
    origin.iata_code AS origin,
    origin.city      AS origin_city,
    f.scheduled_dep,
    f.status
FROM flights f
JOIN airports origin ON f.origin_icao = origin.icao_code
WHERE 1 = 1"

def airlineClause (s : Selection) : String :=
  if s.airline = allSentinel then "" else " AND f.airline_name = ?"

def statusClause (s : Selection) : String :=
  if s.status = allSentinel then "" else " AND f.status = ?"

def originClause (s : Selection) : String :=
  if s.origin = allSentinel then "" else " AND origin.iata_code = ?"

def orderLimitClause : String := " ORDER BY f.scheduled_dep DESC LIMIT 100"

def explorerQuery (s : Selection) : String :=
  explorerBaseQuery ++ airlineClause s ++ statusClause s ++ originClause s
    ++ orderLimitClause

def explorerParams (s : Selection) : List String :=
  (if s.airline = allSentinel then [] else [s.airline])
    ++ (if s.status = allSentinel then [] else [s.status])
    ++ (if s.origin = allSentinel then [] else [s.origin])

def numNonAll (s : Selection) : Nat :=
  (if s.airline = allSentinel then 0 else 1)
    + (if s.status = allSentinel then 0 else 1)
    + (if s.origin = allSentinel then 0 else 1)

def placeholderCount (q : String) : Nat := q.data.count ('?')

/-! ## Flight Explorer: execution semantics

The base query is an inner join from flights to airports on the origin
ICAO code, then the conjunctive filters, then
`ORDER BY f.scheduled_dep DESC LIMIT 100`. -/

def explorerJoin (db : DB) : List (Flight × Airport) :=
  db.flights.flatMap (fun f =>
    (db.airports.filter (fun ap => f.origin_icao == some ap.icao_code)).map
      (fun ap => (f, ap)))

def rowMatches (s : Selection) (r : Flight × Airport) : Bool :=
  (s.airline == allSentinel || r.1.airline_name == s.airline)
    && (s.status == allSentinel || r.1.status == s.status)
    && (s.origin == allSentinel || r.2.iata_code == s.origin)

def explorerFiltered (db : DB) (s : Selection) : List (Flight × Airport) :=
  (explorerJoin db).filter (rowMatches s)

/-- `ORDER BY f.scheduled_dep DESC`: row `p` comes no later than row `q`
when the scheduled departure of `q` is at most that of `p`. -/
def schedDesc (p q : Flight × Airport) : Prop :=
  textLe q.1.scheduled_dep p.1.scheduled_dep

instance instDecSchedDesc : DecidableRel schedDesc :=
  fun p q => instDecTextLe q.1.scheduled_dep p.1.scheduled_dep

def explorerResult (db : DB) (s : Selection) : List (Flight × Airport) :=
  (List.insertionSort schedDesc (explorerFiltered db s)).take 100

/-- The projected columns of the Flight Explorer grid. -/
structure ExplorerRow where
  flight_number : String
  airline_name : String
  origin : String
  origin_city : String
  scheduled_dep : Option String
  status : String
deriving DecidableEq

def explorerRows (db : DB) (s : Selection) : List ExplorerRow :=
  (explorerResult db s).map (fun r =>
    { flight_number := r.1.flight_number
      airline_name := r.1.airline_name
      origin := r.2.iata_code
      origin_city := r.2.city
      scheduled_dep := r.1.scheduled_dep
      status := r.1.status })

/-! ## Query catalog (page 6, SQL Query Results)

A fixed, enumerable mapping from a query identifier to a pre-authored
aggregate query.  The dictionary lookup fails on an unknown identifier
and returns the stored text unchanged on a known one.  Single quotes
inside the SQL texts are written with the escape \x27. -/

def q1Sql : String :=
"SELECT
    a.aircraft_model,
    COUNT(f.flight_id) AS total_flights
FROM flights f
JOIN aircraft a ON f.aircraft_reg = a.aircraft_reg
GROUP BY a.aircraft_model
ORDER BY total_flights DESC"

def q2Sql : String :=
"SELECT
    a.aircraft_reg   AS registration,
    a.aircraft_model AS model,
    a.manufacturer,
    COUNT(f.flight_id) AS flight_count
FROM aircraft a
JOIN flights f ON a.aircraft_reg = f.aircraft_reg
GROUP BY a.aircraft_reg, a.aircraft_model, a.manufacturer
HAVING COUNT(f.flight_id) > 5
ORDER BY flight_count DESC"

def q3Sql : String :=
"SELECT
    ap.name AS airport_name,
    ap.city,
    ap.country,
    COUNT(f.flight_id) AS outbound_flights
FROM airports ap
JOIN flights f ON ap.icao_code = f.origin_icao
GROUP BY ap.icao_code, ap.name, ap.city, ap.country
HAVING COUNT(f.flight_id) > 5
ORDER BY outbound_flights DESC"

def q4Sql : String :=
"SELECT
    ap.name AS airport_name,
    ap.city,
    ap.country,
    COUNT(f.flight_id) AS arriving_flights
FROM airports ap
JOIN flights f ON ap.icao_code = f.dest_icao
GROUP BY ap.icao_code, ap.name, ap.city, ap.country
ORDER BY arriving_flights DESC
LIMIT 3"

def q5Sql : String :=
"SELECT
    f.flight_number,
    origin.iata_code AS origin,
    origin.country   AS origin_country,
    dest.iata_code   AS destination,
    dest.country     AS dest_country,
    CASE
        WHEN origin.country = dest.country THEN \x27Domestic\x27
        ELSE \x27International\x27
    END AS flight_type
FROM flights f
LEFT JOIN airports origin ON f.origin_icao = origin.icao_code
LEFT JOIN airports dest   ON f.dest_icao   = dest.icao_code
WHERE origin.icao_code IS NOT NULL
   OR dest.icao_code   IS NOT NULL
LIMIT 200"

def q6Sql : String :=
"SELECT
    f.flight_number,
    a.aircraft_model AS aircraft,
    a.manufacturer,
    origin.name AS departure_airport,
    origin.city AS departure_city,
    f.actual_arr AS arrival_time,
    f.status
FROM flights f
LEFT JOIN aircraft a ON f.aircraft_reg = a.aircraft_reg
LEFT JOIN airports origin ON f.origin_icao = origin.icao_code
LEFT JOIN airports dest   ON f.dest_icao   = dest.icao_code
WHERE dest.iata_code = \x27DEL\x27
ORDER BY f.scheduled_arr DESC
LIMIT 5"

def q7Sql : String :=
"SELECT
    ap.iata_code,
    ap.name   AS airport_name,
    ap.city,
    ap.country
FROM airports ap
LEFT JOIN flights f ON ap.icao_code = f.dest_icao
WHERE f.flight_id IS NULL
ORDER BY ap.name"

def q8Sql : String :=
"SELECT
    f.airline_name,
    SUM(CASE WHEN f.status = \x27Arrived\x27     THEN 1 ELSE 0 END) AS arrived,
    SUM(CASE WHEN f.status = \x27Departed\x27    THEN 1 ELSE 0 END) AS departed,
    SUM(CASE WHEN f.status = \x27Unknown\x27     THEN 1 ELSE 0 END) AS unknown,
    SUM(CASE WHEN f.status = \x27Expected\x27    THEN 1 ELSE 0 END) AS expected,
    SUM(CASE WHEN f.status = \x27Approaching\x27 THEN 1 ELSE 0 END) AS approaching,
    SUM(CASE WHEN f.status = \x27Canceled\x27    THEN 1 ELSE 0 END) AS canceled,
    SUM(CASE WHEN f.status = \x27Delayed\x27     THEN 1 ELSE 0 END) AS delayed,
    COUNT(f.flight_id) AS total_flights
FROM flights f
GROUP BY f.airline_name
ORDER BY total_flights DESC"

def q9Sql : String :=
"SELECT
    f.flight_number,
    f.airline_name,
    dest.name AS destination_airport,
    dest.city AS destination_city,
    f.scheduled_dep AS scheduled_departure,
    f.status
FROM flights f
LEFT JOIN aircraft a ON f.aircraft_reg = a.aircraft_reg
LEFT JOIN airports origin ON f.origin_icao = origin.icao_code
LEFT JOIN airports dest   ON f.dest_icao   = dest.icao_code
WHERE f.status = \x27Canceled\x27
ORDER BY f.scheduled_dep DESC NULLS LAST"

def q10Sql : String :=
"SELECT
    origin.city AS origin_city,
    dest.city   AS dest_city,
    origin.iata_code AS origin_code,
    dest.iata_code   AS dest_code,
    COUNT(DISTINCT a.aircraft_model) AS aircraft_model_count,
    GROUP_CONCAT(DISTINCT a.aircraft_model) AS aircraft_models
FROM flights f
LEFT JOIN airports origin ON f.origin_icao = origin.icao_code
LEFT JOIN airports dest   ON f.dest_icao   = dest.icao_code
LEFT JOIN aircraft a      ON f.aircraft_reg = a.aircraft_reg
GROUP BY origin.city, dest.city, origin.iata_code, dest.iata_code
HAVING COUNT(DISTINCT a.aircraft_model) > 2
ORDER BY aircraft_model_count DESC
LIMIT 20"

def q11Sql : String :=
"SELECT
    ap.name AS airport_name,
    ap.city,
    ap.iata_code,
    COUNT(f.flight_id) AS total_arrivals,
    SUM(CASE WHEN f.status = \x27Delayed\x27 OR f.delay_arr > 0 THEN 1 ELSE 0 END)
        AS delayed_arrivals,
    ROUND(
        (SUM(CASE WHEN f.status = \x27Delayed\x27 OR f.delay_arr > 0 THEN 1 ELSE 0 END)
        * 100.0) / COUNT(f.flight_id),
        2
    ) AS delay_percentage
FROM airports ap
JOIN flights f ON ap.icao_code = f.dest_icao
GROUP BY ap.icao_code, ap.name, ap.city, ap.iata_code
HAVING COUNT(f.flight_id) > 0
ORDER BY delay_percentage DESC"

def queryCatalog : List (String × String) :=
  [("1) Flights per Aircraft Model", q1Sql),
   ("2) Aircraft with > 5 Flights", q2Sql),
   ("3) Airports with > 5 Outbound Flights", q3Sql),
   ("4) Top 3 Destination Airports", q4Sql),
   ("5) Domestic vs International (Per Flight)", q5Sql),
   ("6) 5 Most Recent Arrivals at DEL", q6Sql),
   ("7) Airports with No Arriving Flights", q7Sql),
   ("8) Flights by Status per Airline", q8Sql),
   ("9) All Cancelled Flights", q9Sql),
   ("10) City Pairs with > 2 Aircraft Models", q10Sql),
   ("11) % Delayed Arrivals per Destination", q11Sql)]

/-- Outcome of a catalog lookup: the stored query text, or the failure the
specification calls UnknownQueryError (a dictionary miss in the code). -/
inductive LookupResult where
  | ok : String → LookupResult
  | unknownQueryError : String → LookupResult
deriving DecidableEq

def lookupQuery (k : String) : LookupResult :=
  match queryCatalog.find? (fun e => e.1 == k) with
  | some e => LookupResult.ok e.2
  | none => LookupResult.unknownQueryError k

/-! ## Catalog query 5: Domestic vs International (per flight)

Two LEFT JOINs from flights to airports, a filter keeping rows where at
least one joined side resolved, a CASE classifying the row, and a 200-row
cap.  In SQLite the comparison `origin.country = dest.country` is not
satisfied when either side is NULL, so a half-resolved row is classified
International. -/

/-- LEFT JOIN: an empty match list contributes a single NULL row,
otherwise each match contributes a row. -/
def optJoin {α : Type} (l : List α) : List (Option α) :=
  match l with
  | [] => [none]
  | xs => xs.map some

def originAirports (db : DB) (f : Flight) : List Airport :=
  db.airports.filter (fun ap => f.origin_icao == some ap.icao_code)

def destAirports (db : DB) (f : Flight) : List Airport :=
  db.airports.filter (fun ap => f.dest_icao == some ap.icao_code)

def q5Joined (db : DB) : List (Flight × Option Airport × Option Airport) :=
  db.flights.flatMap (fun f =>
    (optJoin (originAirports db f)).flatMap (fun o =>
      (optJoin (destAirports db f)).map (fun d => (f, o, d))))

def q5Filtered (db : DB) : List (Flight × Option Airport × Option Airport) :=
  (q5Joined db).filter (fun t => t.2.1.isSome || t.2.2.isSome)

structure Q5Row where
  flight_number : String
  origin : Option String
  origin_country : Option String
  destination : Option String
  dest_country : Option String
  flight_type : String
deriving DecidableEq

def q5Row (t : Flight × Option Airport × Option Airport) : Q5Row :=
  { flight_number := t.1.flight_number
    origin := t.2.1.map (fun a => a.iata_code)
    origin_country := t.2.1.map (fun a => a.country)
    destination := t.2.2.map (fun a => a.iata_code)
    dest_country := t.2.2.map (fun a => a.country)
    flight_type :=
      match t.2.1, t.2.2 with
      | some o, some d =>
        if o.country = d.country then "Domestic" else "International"
      | _, _ => "International" }

def q5Result (db : DB) : List Q5Row := ((q5Filtered db).take 200).map q5Row

/-! ## Catalog query 7: airports with no arriving flights

LEFT JOIN from airports to flights on the destination ICAO code, then
keep the rows whose joined flight key is NULL, ordered by airport name. -/

def arrivalsTo (db : DB) (ap : Airport) : List Flight :=
  db.flights.filter (fun f => f.dest_icao == some ap.icao_code)

def q7Joined (db : DB) : List (Airport × Option Flight) :=
  db.airports.flatMap (fun ap =>
    (optJoin (arrivalsTo db ap)).map (fun of => (ap, of)))

def q7Filtered (db : DB) : List (Airport × Option Flight) :=
  (q7Joined db).filter (fun r => r.2.isNone)

/-- `ORDER BY ap.name` on the non-null name column. -/
def nameLe (a b : Airport) : Prop := strLe a.name b.name

instance instDecNameLe : DecidableRel nameLe :=
  fun a b => instDecStrLe a.name b.name

def q7Result (db : DB) : List Airport :=
  List.insertionSort nameLe ((q7Filtered db).map (fun r => r.1))

/-! ## Catalog query 8: flights by status per airline

Seven CASE buckets over a fixed status list plus a total count per
airline group.  A status outside the fixed list falls into no bucket but
is still counted in the total. -/

def flightsOfAirline (db : DB) (a : String) : List Flight :=
  db.flights.filter (fun f => f.airline_name == a)

def recognizedStatuses : List String :=
  ["Arrived", "Departed", "Unknown", "Expected", "Approaching", "Canceled",
   "Delayed"]

def statusBucket (db : DB) (a s : String) : Nat :=
  (flightsOfAirline db a).countP (fun f => f.status == s)

def statusBucketSum (db : DB) (a : String) : Nat :=
  (recognizedStatuses.map (fun s => statusBucket db a s)).sum

def totalFlights (db : DB) (a : String) : Nat :=
  (flightsOfAirline db a).length

def unrecognizedCount (db : DB) (a : String) : Nat :=
  (flightsOfAirline db a).countP
    (fun f => !(recognizedStatuses.contains f.status))

/-! ## Catalog query 11: percentage of delayed arrivals per destination

Inner join from airports to flights on the destination ICAO code, grouped
by the airport columns, with `HAVING COUNT(f.flight_id) > 0` and a
percentage whose denominator is the group count.  The REAL division is
modelled by its integer numerator and denominator. -/

def q11Joined (db : DB) : List (Airport × Flight) :=
  db.airports.flatMap (fun ap =>
    (db.flights.filter (fun f => f.dest_icao == some ap.icao_code)).map
      (fun f => (ap, f)))

/-- The GROUP BY key: `ap.icao_code, ap.name, ap.city, ap.iata_code`. -/
def q11Key (ap : Airport) : String × String × String × String :=
  (ap.icao_code, ap.name, ap.city, ap.iata_code)

def q11Keys (db : DB) : List (String × String × String × String) :=
  ((q11Joined db).map (fun r => q11Key r.1)).dedup

def isDelayedArrival (f : Flight) : Bool :=
  f.status == "Delayed"
    || (match f.delay_arr with
        | some d => decide (0 < d)
        | none => false)

structure Q11Row where
  airport_name : String
  city : String
  iata_code : String
  total_arrivals : Nat
  delayed_arrivals : Nat
  pct_num : Nat
  pct_den : Nat
deriving DecidableEq

def q11RowOfKey (db : DB) (k : String × String × String × String) : Q11Row :=
  let grp := (q11Joined db).filter (fun r => q11Key r.1 == k)
  { airport_name := k.2.1
    city := k.2.2.1
    iata_code := k.2.2.2
    total_arrivals := grp.length
    delayed_arrivals := grp.countP (fun r => isDelayedArrival r.2)
    pct_num := grp.countP (fun r => isDelayedArrival r.2) * 100
    pct_den := grp.length }

def q11Pre (db : DB) : List Q11Row :=
  (q11Keys db).map (q11RowOfKey db)

/-- `ORDER BY delay_percentage DESC`, comparing the fractions by cross
multiplication. -/
def pctDesc (r1 r2 : Q11Row) : Prop :=
  r2.pct_num * r1.pct_den ≤ r1.pct_num * r2.pct_den

instance instDecPctDesc : DecidableRel pctDesc :=
  fun r1 r2 =>
    inferInstanceAs (Decidable (r2.pct_num * r1.pct_den ≤ r1.pct_num * r2.pct_den))

def q11Result (db : DB) : List Q11Row :=
  List.insertionSort pctDesc
    ((q11Pre db).filter (fun r => decide (0 < r.total_arrivals)))

/-! ## Concrete databases used by the witness theorems -/

/-- Three decimal digits with leading zeros, so that the SQLite text order
on these values agrees with the numeric order. -/
def pad3 (n : Nat) : String :=
  String.mk
    [Char.ofNat (48 + n / 100 % 10), Char.ofNat (48 + n / 10 % 10),
     Char.ofNat (48 + n % 10)]

def wAirport : Airport :=
  { icao_code := "WAAA", iata_code := "WWW", name := "West Field"
    city := "West", country := "X", timezone := "UTC" }

def wFlight (i : Nat) : Flight :=
  { flight_id := i, flight_number := pad3 i, airline_name := "AirW"
    aircraft_reg := none, origin_icao := some ("WAAA"), dest_icao := none
    scheduled_dep := some (pad3 i), scheduled_arr := none, actual_arr := none
    status := "Expected", delay_dep := none, delay_arr := none }

/-- 101 flights, all resolving to the one airport: one more than the
Flight Explorer row cap. -/
def wdbExplorer : DB :=
  { airports := [wAirport], aircraft := []
    flights := (List.range 101).map wFlight }

def selAll : Selection :=
  { airline := allSentinel, status := allSentinel, origin := allSentinel }

def c1Airport : Airport :=
  { icao_code := "CAAA", iata_code := "CCC", name := "C Field"
    city := "C City", country := "X", timezone := "UTC" }

def c1Flight (i : Nat) : Flight :=
  { flight_id := i, flight_number := pad3 i, airline_name := "AirC"
    aircraft_reg := none, origin_icao := some ("CAAA"), dest_icao := none
    scheduled_dep := none, scheduled_arr := none, actual_arr := none
    status := "Expected", delay_dep := none, delay_arr := none }

/-- 201 flights whose origin joins resolve: one more than the 200-row cap
of catalog query 5. -/
def wdbQ5 : DB :=
  { airports := [c1Airport], aircraft := []
    flights := (List.range 201).map c1Flight }

/-- A flight resolving on neither side. -/
def c1Ghost : Flight :=
  { flight_id := 999, flight_number := "999", airline_name := "AirC"
    aircraft_reg := none, origin_icao := some ("NOPE"), dest_icao := none
    scheduled_dep := none, scheduled_arr := none, actual_arr := none
    status := "Expected", delay_dep := none, delay_arr := none }

/-- A flight whose origin ICAO code matches no airport. -/
def f5Flight : Flight :=
  { flight_id := 1, flight_number := "U1", airline_name := "AirZ"
    aircraft_reg := none, origin_icao := some ("ZZZZ"), dest_icao := none
    scheduled_dep := some ("001"), scheduled_arr := none, actual_arr := none
    status := "Expected", delay_dep := none, delay_arr := none }

def wdbNoAirports : DB :=
  { airports := [], aircraft := [], flights := [f5Flight] }

def apX : Airport :=
  { icao_code := "XAAA", iata_code := "XXX", name := "X Field"
    city := "X City", country := "X", timezone := "UTC" }

def apY : Airport :=
  { icao_code := "YAAA", iata_code := "YYY", name := "Y Field"
    city := "Y City", country := "Y", timezone := "UTC" }

def fxFlight : Flight :=
  { flight_id := 2, flight_number := "R1", airline_name := "AirZ"
    aircraft_reg := none, origin_icao := some ("XAAA")
    dest_icao := some ("YAAA"), scheduled_dep := some ("002")
    scheduled_arr := none, actual_arr := none, status := "Arrived"
    delay_dep := none, delay_arr := some 5 }

/-- One resolvable and one unresolvable flight. -/
def wdbMixed : DB :=
  { airports := [apX], aircraft := [], flights := [f5Flight, fxFlight] }

/-- Two airports; only the second one has an arriving flight. -/
def wdbQ7 : DB :=
  { airports := [apX, apY], aircraft := [], flights := [fxFlight] }

def s7a : Flight :=
  { flight_id := 11, flight_number := "S1", airline_name := "AirS"
    aircraft_reg := none, origin_icao := none, dest_icao := none
    scheduled_dep := none, scheduled_arr := none, actual_arr := none
    status := "Arrived", delay_dep := none, delay_arr := none }

/-- A status string outside the fixed CASE list of catalog query 8. -/
def s7b : Flight :=
  { flight_id := 12, flight_number := "S2", airline_name := "AirS"
    aircraft_reg := none, origin_icao := none, dest_icao := none
    scheduled_dep := none, scheduled_arr := none, actual_arr := none
    status := "OnTime", delay_dep := none, delay_arr := none }

def wdbQ8 : DB := { airports := [], aircraft := [], flights := [s7a, s7b] }

def d1Flight : Flight :=
  { flight_id := 21, flight_number := "D1", airline_name := "Beta"
    aircraft_reg := none, origin_icao := some ("XAAA"), dest_icao := none
    scheduled_dep := none, scheduled_arr := none, actual_arr := none
    status := "Arrived", delay_dep := none, delay_arr := none }

def d2Flight : Flight :=
  { flight_id := 22, flight_number := "D2", airline_name := "Alpha"
    aircraft_reg := none, origin_icao := some ("XAAA"), dest_icao := none
    scheduled_dep := none, scheduled_arr := none, actual_arr := none
    status := "Delayed", delay_dep := none, delay_arr := none }

def d3Flight : Flight :=
  { flight_id := 23, flight_number := "D3", airline_name := "Beta"
    aircraft_reg := none, origin_icao := some ("XAAA"), dest_icao := none
    scheduled_dep := none, scheduled_arr := none, actual_arr := none
    status := "Arrived", delay_dep := none, delay_arr := none }

/-- Duplicate airline and status values, out of order. -/
def wdbDomains : DB :=
  { airports := [apY, apX], aircraft := []
    flights := [d1Flight, d2Flight, d3Flight] }

/-! ## Helper lemmas: the text order is total and transitive -/

theorem charListLe_total : ∀ a b, charListLe a b = true ∨ charListLe b a = true := by
  intro a
  induction a with
  | nil => intro b; exact Or.inl rfl
  | cons c cs ih =>
    intro b
    cases b with
    | nil => exact Or.inr rfl
    | cons d ds =>
      by_cases h1 : c.toNat < d.toNat
      · left; simp [charListLe, h1]
      · by_cases h2 : d.toNat < c.toNat
        · right; simp [charListLe, h2]
        · rcases ih ds with h | h
          · left; simp [charListLe, h1, h2, h]
          · right; simp [charListLe, h1, h2, h]

theorem charListLe_trans :
    ∀ a b c, charListLe a b = true → charListLe b c = true →
      charListLe a c = true := by
  intro a
  induction a with
  | nil => intro b c _ _; rfl
  | cons x xs ih =>
    intro b c hab hbc
    cases b with
    | nil => simp [charListLe] at hab
    | cons y ys =>
      cases c with
      | nil => simp [charListLe] at hbc
      | cons z zs =>
        by_cases hxy : x.toNat < y.toNat
        · by_cases hyz : y.toNat < z.toNat
          · have hxz : x.toNat < z.toNat := Nat.lt_trans hxy hyz
            simp [charListLe, hxz]
          · by_cases hzy : z.toNat < y.toNat
            · simp [charListLe, hyz, hzy] at hbc
            · have hxz : x.toNat < z.toNat := by omega
              simp [charListLe, hxz]
        · by_cases hyx : y.toNat < x.toNat
          · simp [charListLe, hxy, hyx] at hab
          · simp only [charListLe, if_neg hxy, if_neg hyx] at hab
            by_cases hyz : y.toNat < z.toNat
            · have hxz : x.toNat < z.toNat := by omega
              simp [charListLe, hxz]
            · by_cases hzy : z.toNat < y.toNat
              · simp [charListLe, hyz, hzy] at hbc
              · simp only [charListLe, if_neg hyz, if_neg hzy] at hbc
                have hxz : ¬ x.toNat < z.toNat := by omega
                have hzx : ¬ z.toNat < x.toNat := by omega
                simp only [charListLe, if_neg hxz, if_neg hzx]
                exact ih ys zs hab hbc

theorem strLe_total (a b : String) : strLe a b ∨ strLe b a :=
  charListLe_total a.data b.data

theorem strLe_trans {a b c : String} (h1 : strLe a b) (h2 : strLe b c) :
    strLe a c :=
  charListLe_trans a.data b.data c.data h1 h2

theorem textLe_total (a b : Option String) : textLe a b ∨ textLe b a := by
  cases a with
  | none => exact Or.inl trivial
  | some x =>
    cases b with
    | none => exact Or.inr trivial
    | some y => exact strLe_total x y

theorem textLe_trans {a b c : Option String} (h1 : textLe a b)
    (h2 : textLe b c) : textLe a c := by
  cases a with
  | none => exact trivial
  | some x =>
    cases b with
    | none => exact h1.elim
    | some y =>
      cases c with
      | none => exact h2.elim
      | some z => exact strLe_trans h1 h2

/-! ## Placeholder-counting helpers for the composer -/

theorem placeholderCount_append (a b : String) :
    placeholderCount (a ++ b) = placeholderCount a + placeholderCount b := by
  simp [placeholderCount, String.data_append, List.count_append]

theorem placeholderCount_base : placeholderCount explorerBaseQuery = 0 := by
  decide

theorem placeholderCount_orderLimit : placeholderCount orderLimitClause = 0 := by
  decide

theorem placeholderCount_airlineClause (s : Selection) :
    placeholderCount (airlineClause s)
      = (if s.airline = allSentinel then 0 else 1) := by
  by_cases h : s.airline = allSentinel
  · simp only [airlineClause, if_pos h]; decide
  · simp only [airlineClause, if_neg h]; decide

theorem placeholderCount_statusClause (s : Selection) :
    placeholderCount (statusClause s)
      = (if s.status = allSentinel then 0 else 1) := by
  by_cases h : s.status = allSentinel
  · simp only [statusClause, if_pos h]; decide
  · simp only [statusClause, if_neg h]; decide

theorem placeholderCount_originClause (s : Selection) :
    placeholderCount (originClause s)
      = (if s.origin = allSentinel then 0 else 1) := by
  by_cases h : s.origin = allSentinel
  · simp only [originClause, if_pos h]; decide
  · simp only [originClause, if_neg h]; decide

/-- C2: for every combination of the three Flight Explorer filter
selections, the composer emits the base query with the predicate clauses
appended in the fixed order airline, status, origin, followed by the
ordering and row-cap clause; the parameter sequence length and the number
of placeholders in the emitted SQL both equal the number of selections
that are not the All sentinel. -/
theorem explorer_composer_params_spec (s : Selection) :
    explorerQuery s
        = explorerBaseQuery ++ airlineClause s ++ statusClause s
            ++ originClause s ++ orderLimitClause
      ∧ (explorerParams s).length = numNonAll s
      ∧ placeholderCount (explorerQuery s) = numNonAll s := by
  refine ⟨rfl, ?_, ?_⟩
  · by_cases h1 : s.airline = allSentinel <;>
      by_cases h2 : s.status = allSentinel <;>
      by_cases h3 : s.origin = allSentinel <;>
      simp [explorerParams, numNonAll, h1, h2, h3]
  · have hsplit : placeholderCount (explorerQuery s)
        = placeholderCount explorerBaseQuery
          + placeholderCount (airlineClause s)
          + placeholderCount (statusClause s)
          + placeholderCount (originClause s)
          + placeholderCount orderLimitClause := by
      unfold explorerQuery
      rw [placeholderCount_append, placeholderCount_append,
        placeholderCount_append, placeholderCount_append]
    rw [hsplit, placeholderCount_base, placeholderCount_orderLimit,
      placeholderCount_airlineClause, placeholderCount_statusClause,
      placeholderCount_originClause]
    by_cases h1 : s.airline = allSentinel <;>
      by_cases h2 : s.status = allSentinel <;>
      by_cases h3 : s.origin = allSentinel <;>
      simp [numNonAll, h1, h2, h3]

/-- C8: the emitted SQL string depends only on which of the three filters
are set to a non-All value, never on the selected values themselves, and
the selected values travel only in the bound-parameter sequence. -/
theorem explorer_query_independent_of_values (s t : Selection)
    (ha : s.airline = allSentinel ↔ t.airline = allSentinel)
    (hs : s.status = allSentinel ↔ t.status = allSentinel)
    (ho : s.origin = allSentinel ↔ t.origin = allSentinel) :
    explorerQuery s = explorerQuery t
      ∧ explorerParams s
          = (if s.airline = allSentinel then [] else [s.airline])
              ++ (if s.status = allSentinel then [] else [s.status])
              ++ (if s.origin = allSentinel then [] else [s.origin]) := by
  refine ⟨?_, rfl⟩
  have e1 : airlineClause s = airlineClause t := by
    unfold airlineClause
    by_cases h : s.airline = allSentinel
    · rw [if_pos h, if_pos (ha.mp h)]
    · rw [if_neg h, if_neg (fun hh => h (ha.mpr hh))]
  have e2 : statusClause s = statusClause t := by
    unfold statusClause
    by_cases h : s.status = allSentinel
    · rw [if_pos h, if_pos (hs.mp h)]
    · rw [if_neg h, if_neg (fun hh => h (hs.mpr hh))]
  have e3 : originClause s = originClause t := by
    unfold originClause
    by_cases h : s.origin = allSentinel
    · rw [if_pos h, if_pos (ho.mp h)]
    · rw [if_neg h, if_neg (fun hh => h (ho.mpr hh))]
  unfold explorerQuery
  rw [e1, e2, e3]

theorem explorer_query_independent_of_values_witness :
    explorerQuery { airline := "IndiGo", status := allSentinel, origin := "BLR" }
      = explorerQuery { airline := "Air India", status := allSentinel, origin := "DEL" } :=
  (explorer_query_independent_of_values _ _ (by decide) (by decide)
    (by decide)).1

/-- C3: for every database and filter selection, the Flight Explorer
result never exceeds the 100-row cap, and no row matching the same
filters and with a strictly more recent scheduled departure exists
outside the returned rows: every excluded matching row departs no later
than every returned row. -/
theorem explorer_row_cap_most_recent (db : DB) (s : Selection) :
    (explorerResult db s).length ≤ 100
      ∧ ∀ g ∈ explorerFiltered db s, g ∉ explorerResult db s →
          ∀ f ∈ explorerResult db s, schedDesc f g := by
  haveI : IsTotal (Flight × Airport) schedDesc :=
    ⟨fun p q => textLe_total q.1.scheduled_dep p.1.scheduled_dep⟩
  haveI : IsTrans (Flight × Airport) schedDesc :=
    ⟨fun _ _ _ h1 h2 => textLe_trans h2 h1⟩
  constructor
  · unfold explorerResult
    rw [List.length_take]
    exact min_le_left _ _
  · intro g hg hgn f hf
    have hperm := List.perm_insertionSort schedDesc (explorerFiltered db s)
    have hsorted := List.sorted_insertionSort schedDesc (explorerFiltered db s)
    have hg2 : g ∈ List.insertionSort schedDesc (explorerFiltered db s) :=
      hperm.mem_iff.mpr hg
    have hg3 : g ∈ List.take 100 (List.insertionSort schedDesc (explorerFiltered db s))
        ++ List.drop 100 (List.insertionSort schedDesc (explorerFiltered db s)) := by
      rw [List.take_append_drop]
      exact hg2
    have hg4 : g ∈ List.drop 100 (List.insertionSort schedDesc (explorerFiltered db s)) := by
      rcases List.mem_append.mp hg3 with h | h
      · exact absurd h hgn
      · exact h
    exact hsorted.rel_of_mem_take_of_mem_drop hf hg4

theorem explorer_row_cap_most_recent_witness :
    (wFlight 0, wAirport) ∈ explorerFiltered wdbExplorer selAll
      ∧ (wFlight 0, wAirport) ∉ explorerResult wdbExplorer selAll
      ∧ (wFlight 100, wAirport) ∈ explorerResult wdbExplorer selAll
      ∧ schedDesc (wFlight 100, wAirport) (wFlight 0, wAirport) := by
  have h1 : (wFlight 0, wAirport) ∈ explorerFiltered wdbExplorer selAll := by
    decide
  have h2 : (wFlight 0, wAirport) ∉ explorerResult wdbExplorer selAll := by
    decide
  have h3 : (wFlight 100, wAirport) ∈ explorerResult wdbExplorer selAll := by
    decide
  exact ⟨h1, h2, h3,
    (explorer_row_cap_most_recent wdbExplorer selAll).2 _ h1 h2 _ h3⟩

/-- C5 counterexample: a flight whose origin ICAO code matches no airport
is dropped by the Flight Explorer inner join, contrary to the claim that
it still appears with the airport columns missing. -/
theorem explorer_drops_unresolved_origin_flight :
    f5Flight ∈ wdbNoAirports.flights
      ∧ (∀ ap ∈ wdbNoAirports.airports,
          f5Flight.origin_icao ≠ some ap.icao_code)
      ∧ explorerResult wdbNoAirports selAll = [] := by
  decide

/-- C5 (amended): the Flight Explorer base query joins airports with an
inner join, so a flight whose origin ICAO code matches no airport never
appears in the Flight Explorer result, for every filter selection. -/
theorem explorer_excludes_unresolved_origin (db : DB) (s : Selection)
    (f : Flight)
    (hf : ∀ ap ∈ db.airports, f.origin_icao ≠ some ap.icao_code) :
    ∀ r ∈ explorerResult db s, r.1 ≠ f := by
  intro r hr hcontra
  have hr2 : r ∈ List.insertionSort schedDesc (explorerFiltered db s) :=
    List.mem_of_mem_take hr
  have hr3 : r ∈ explorerFiltered db s :=
    (List.perm_insertionSort schedDesc (explorerFiltered db s)).mem_iff.mp hr2
  have hr4 : r ∈ explorerJoin db := (List.mem_filter.mp hr3).1
  rcases List.mem_flatMap.mp hr4 with ⟨f0, _, hrmem⟩
  rcases List.mem_map.mp hrmem with ⟨ap, hap, heq⟩
  have hap2 := List.mem_filter.mp hap
  have hjoin : f0.origin_icao = some ap.icao_code := by
    simpa using hap2.2
  have hr1 : r.1 = f0 := by rw [← heq]
  have hff : f = f0 := by rw [← hcontra, hr1]
  exact hf ap hap2.1 (hff ▸ hjoin)

theorem explorer_excludes_unresolved_origin_witness :
    (fxFlight, apX) ∈ explorerResult wdbMixed selAll
      ∧ (fxFlight, apX).1 ≠ f5Flight := by
  have h1 : (fxFlight, apX) ∈ explorerResult wdbMixed selAll := by decide
  exact ⟨h1,
    explorer_excludes_unresolved_origin wdbMixed selAll f5Flight (by decide)
      _ h1⟩

/-! ## C9: filter domain resolver -/

theorem distinctSorted_spec (l : List String) :
    List.Sorted strLe (distinctSorted l) ∧ (distinctSorted l).Nodup
      ∧ ∀ x, x ∈ distinctSorted l ↔ x ∈ l := by
  haveI : IsTotal String strLe := ⟨strLe_total⟩
  haveI : IsTrans String strLe := ⟨fun _ _ _ => strLe_trans⟩
  unfold distinctSorted
  refine ⟨List.sorted_insertionSort strLe l.dedup, ?_, ?_⟩
  · exact ((List.perm_insertionSort strLe l.dedup).nodup_iff).mpr
      (List.nodup_dedup l)
  · intro x
    rw [(List.perm_insertionSort strLe l.dedup).mem_iff, List.mem_dedup]

/-- C9: each selector domain is recomputed from the database as the
distinct set of observed values of its column in ascending lexical order,
prefixed with the All sentinel as the first option. -/
theorem filter_domain_resolver_spec (db : DB) :
    ((airlineOptions db).head? = some allSentinel
      ∧ List.Sorted strLe (airlineOptions db).tail
      ∧ (airlineOptions db).tail.Nodup
      ∧ ∀ x, x ∈ (airlineOptions db).tail
          ↔ x ∈ db.flights.map (fun f => f.airline_name))
    ∧ ((statusOptions db).head? = some allSentinel
      ∧ List.Sorted strLe (statusOptions db).tail
      ∧ (statusOptions db).tail.Nodup
      ∧ ∀ x, x ∈ (statusOptions db).tail
          ↔ x ∈ db.flights.map (fun f => f.status))
    ∧ ((originOptions db).head? = some allSentinel
      ∧ List.Sorted strLe (originOptions db).tail
      ∧ (originOptions db).tail.Nodup
      ∧ ∀ x, x ∈ (originOptions db).tail
          ↔ x ∈ db.airports.map (fun a => a.iata_code)) :=
  ⟨⟨rfl, (distinctSorted_spec _).1, (distinctSorted_spec _).2.1,
      fun x => (distinctSorted_spec _).2.2 x⟩,
   ⟨rfl, (distinctSorted_spec _).1, (distinctSorted_spec _).2.1,
      fun x => (distinctSorted_spec _).2.2 x⟩,
   ⟨rfl, (distinctSorted_spec _).1, (distinctSorted_spec _).2.1,
      fun x => (distinctSorted_spec _).2.2 x⟩⟩

theorem filter_domain_resolver_spec_witness :
    (airlineOptions wdbDomains).head? = some allSentinel
      ∧ ((("Alpha") ∈ (airlineOptions wdbDomains).tail)
          ↔ (("Alpha") ∈ wdbDomains.flights.map (fun f => f.airline_name))) :=
  ⟨(filter_domain_resolver_spec wdbDomains).1.1,
   (filter_domain_resolver_spec wdbDomains).1.2.2.2 ("Alpha")⟩

/-! ## C6: catalog lookup -/

set_option maxRecDepth 8000 in
/-- C6: looking up any identifier present in the fixed catalog returns
the associated query text unchanged; looking up an identifier that is in
no catalog entry fails with the unknown-query error. -/
theorem catalog_lookup_contract :
    (∀ e ∈ queryCatalog, lookupQuery e.1 = LookupResult.ok e.2)
      ∧ ∀ k, (∀ e ∈ queryCatalog, e.1 ≠ k) →
          lookupQuery k = LookupResult.unknownQueryError k := by
  constructor
  · decide
  · intro k h
    cases hfind : queryCatalog.find? (fun e => e.1 == k) with
    | none => simp [lookupQuery, hfind]
    | some e =>
      exact absurd (by simpa using List.find?_some hfind)
        (h e (List.mem_of_find?_eq_some hfind))

set_option maxRecDepth 8000 in
theorem catalog_lookup_contract_witness :
    lookupQuery ("5) Domestic vs International (Per Flight)")
        = LookupResult.ok q5Sql
      ∧ lookupQuery ("No Such Query")
          = LookupResult.unknownQueryError ("No Such Query") :=
  ⟨catalog_lookup_contract.1
      ("5) Domestic vs International (Per Flight)", q5Sql) (by decide),
   catalog_lookup_contract.2 ("No Such Query") (by decide)⟩

/-! ## C7: status buckets versus the total count -/

theorem contains_eq_decide_mem (l : List String) (x : String) :
    l.contains x = decide (x ∈ l) := by
  induction l with
  | nil => rfl
  | cons c cs ih =>
    rw [List.contains_cons, ih]
    by_cases h : x = c
    · subst h; simp
    · simp [List.mem_cons, h]

theorem sum_indicator_zero (x : String) :
    ∀ (cand : List String), x ∉ cand →
      (cand.map (fun s => if x == s then 1 else 0)).sum = 0 := by
  intro cand
  induction cand with
  | nil => intro _; rfl
  | cons c cs ih =>
    intro hx
    rw [List.mem_cons] at hx
    push_neg at hx
    rw [List.map_cons, List.sum_cons, ih hx.2]
    have hb : (x == c) = false := by simp [hx.1]
    rw [hb]
    simp

theorem sum_indicator_eq (x : String) :
    ∀ (cand : List String), cand.Nodup →
      (cand.map (fun s => if x == s then 1 else 0)).sum
        = if x ∈ cand then 1 else 0 := by
  intro cand
  induction cand with
  | nil => intro _; rfl
  | cons c cs ih =>
    intro hn
    rw [List.nodup_cons] at hn
    rw [List.map_cons, List.sum_cons]
    by_cases hxc : x = c
    · subst hxc
      rw [sum_indicator_zero x cs hn.1]
      have h1 : (x == x) = true := by simp
      rw [h1, if_pos (List.mem_cons_self x cs)]
      simp
    · rw [ih hn.2]
      have h1 : (x == c) = false := by simp [hxc]
      rw [h1]
      have hmiff : (x ∈ c :: cs) ↔ (x ∈ cs) := by simp [List.mem_cons, hxc]
      by_cases h2 : x ∈ cs
      · rw [if_pos h2, if_pos (hmiff.mpr h2)]
        simp
      · rw [if_neg h2, if_neg (fun hh => h2 (hmiff.mp hh))]
        simp

theorem bucket_sum_cons (cand : List String) (f : Flight) (l : List Flight) :
    (cand.map (fun s => List.countP (fun f2 => f2.status == s) (f :: l))).sum
      = (cand.map (fun s => List.countP (fun f2 => f2.status == s) l)).sum
        + (cand.map (fun s => if f.status == s then 1 else 0)).sum := by
  induction cand with
  | nil => rfl
  | cons c cs ih =>
    rw [List.map_cons, List.sum_cons, List.map_cons, List.sum_cons,
      List.map_cons, List.sum_cons, ih, List.countP_cons]
    omega

theorem statusTally_aux (cand : List String) (hn : cand.Nodup) :
    ∀ (l : List Flight),
      (cand.map (fun s => List.countP (fun f2 => f2.status == s) l)).sum
        + List.countP (fun f2 => !(decide (f2.status ∈ cand))) l
        = l.length := by
  intro l
  induction l with
  | nil => simp
  | cons f l ih =>
    rw [bucket_sum_cons]
    simp only [List.countP_cons, List.length_cons]
    rw [sum_indicator_eq f.status cand hn]
    by_cases h : f.status ∈ cand
    · rw [if_pos h]
      have hb : (!(decide (f.status ∈ cand))) = false := by simp [h]
      simp only [hb]
      simp only [Bool.false_eq_true, if_false]
      omega
    · rw [if_neg h]
      have hb : (!(decide (f.status ∈ cand))) = true := by simp [h]
      simp only [hb, if_true]
      omega

/-- C7: in the per-airline status report, the seven named buckets plus
the count of flights whose status is outside the recognized list add up
to the total, and the bucket sum equals the total exactly when every
flight of the airline has a recognized status. -/
theorem q8_status_buckets_vs_total (db : DB) (a : String) :
    statusBucketSum db a + unrecognizedCount db a = totalFlights db a
      ∧ (statusBucketSum db a = totalFlights db a
          ↔ ∀ f ∈ flightsOfAirline db a, f.status ∈ recognizedStatuses) := by
  have hfun : (fun f : Flight => !(recognizedStatuses.contains f.status))
      = (fun f : Flight => !(decide (f.status ∈ recognizedStatuses))) :=
    funext (fun f => by rw [contains_eq_decide_mem])
  have hn : recognizedStatuses.Nodup := by decide
  have hmain : statusBucketSum db a + unrecognizedCount db a
      = totalFlights db a := by
    unfold statusBucketSum statusBucket unrecognizedCount totalFlights
    rw [hfun]
    exact statusTally_aux recognizedStatuses hn (flightsOfAirline db a)
  refine ⟨hmain, ?_, ?_⟩
  · intro he
    have h0 : unrecognizedCount db a = 0 := by omega
    intro f hf
    have h1 := List.countP_eq_zero.mp h0 f hf
    simpa [contains_eq_decide_mem] using h1
  · intro hall
    have h0 : unrecognizedCount db a = 0 := by
      unfold unrecognizedCount
      exact List.countP_eq_zero.mpr
        (fun f hf => by simp [contains_eq_decide_mem, hall f hf])
    omega

theorem q8_status_buckets_vs_total_witness :
    statusBucketSum wdbQ8 ("AirS") + unrecognizedCount wdbQ8 ("AirS")
        = totalFlights wdbQ8 ("AirS")
      ∧ statusBucketSum wdbQ8 ("AirS") = 1
      ∧ totalFlights wdbQ8 ("AirS") = 2 :=
  ⟨(q8_status_buckets_vs_total wdbQ8 ("AirS")).1, by decide, by decide⟩

/-! ## C1: catalog query 5 -/

theorem optJoin_ne_nil {α : Type} (l : List α) : optJoin l ≠ [] := by
  cases l <;> simp [optJoin]

theorem mem_optJoin_of_mem {α : Type} {a : α} {l : List α} (h : a ∈ l) :
    some a ∈ optJoin l := by
  cases l with
  | nil => cases h
  | cons x xs => simpa [optJoin] using List.mem_map_of_mem some h

/-- C1 (amended): in catalog query 5 a result row is classified Domestic
exactly when both sides resolved and their country strings are equal, and
International otherwise; a flight resolving on neither side contributes
no row; a flight resolving on at least one side contributes a row to the
filtered rows, of which the query returns only the first 200. -/
theorem q5_domestic_international_rule (db : DB) :
    (∀ r ∈ q5Result db,
        (r.flight_type = "Domestic"
          ↔ ∃ c, r.origin_country = some c ∧ r.dest_country = some c))
      ∧ (∀ f, originAirports db f = [] → destAirports db f = [] →
          ∀ t ∈ q5Filtered db, t.1 ≠ f)
      ∧ (∀ f ∈ db.flights,
          originAirports db f ≠ [] ∨ destAirports db f ≠ [] →
            ∃ t ∈ q5Filtered db, t.1 = f)
      ∧ (q5Result db).length ≤ 200 := by
  refine ⟨?_, ?_, ?_, ?_⟩
  · intro r hr
    rcases List.mem_map.mp hr with ⟨t, _, rfl⟩
    obtain ⟨f, o, d⟩ := t
    cases o with
    | none => cases d with
      | none => simp [q5Row]
      | some b => simp [q5Row]
    | some a => cases d with
      | none => simp [q5Row]
      | some b =>
        simp only [q5Row]
        by_cases h : a.country = b.country
        · rw [if_pos h]
          constructor
          · intro _
            exact ⟨a.country, by simp, by simp [h]⟩
          · intro _
            rfl
        · rw [if_neg h]
          constructor
          · intro hd
            exact absurd hd (by decide)
          · rintro ⟨c, hc1, hc2⟩
            simp at hc1 hc2
            exact absurd (hc1.trans hc2.symm) h
  · intro f h1 h2 t ht hteq
    have ht2 := List.mem_filter.mp ht
    rcases List.mem_flatMap.mp ht2.1 with ⟨f0, _, hmem⟩
    rcases List.mem_flatMap.mp hmem with ⟨o, ho, hmem2⟩
    rcases List.mem_map.mp hmem2 with ⟨d, hd, heq⟩
    have hff : f0 = f := by rw [← hteq, ← heq]
    subst hff
    rw [h1] at ho
    rw [h2] at hd
    simp only [optJoin, List.mem_singleton] at ho hd
    have hpred := ht2.2
    rw [← heq] at hpred
    subst ho
    subst hd
    simp at hpred
  · intro f hf hor
    rcases hor with h | h
    · rcases List.exists_mem_of_ne_nil _ h with ⟨a, ha⟩
      rcases List.exists_mem_of_ne_nil _ (optJoin_ne_nil (destAirports db f))
        with ⟨d, hd⟩
      refine ⟨(f, some a, d), ?_, rfl⟩
      apply List.mem_filter.mpr
      refine ⟨?_, by simp⟩
      apply List.mem_flatMap.mpr
      exact ⟨f, hf, List.mem_flatMap.mpr
        ⟨some a, mem_optJoin_of_mem ha,
          List.mem_map.mpr ⟨d, hd, rfl⟩⟩⟩
    · rcases List.exists_mem_of_ne_nil _ h with ⟨b, hb⟩
      rcases List.exists_mem_of_ne_nil _ (optJoin_ne_nil (originAirports db f))
        with ⟨o, ho⟩
      refine ⟨(f, o, some b), ?_, rfl⟩
      apply List.mem_filter.mpr
      refine ⟨?_, by simp⟩
      apply List.mem_flatMap.mpr
      exact ⟨f, hf, List.mem_flatMap.mpr
        ⟨o, ho, List.mem_map.mpr ⟨some b, mem_optJoin_of_mem hb, rfl⟩⟩⟩
  · unfold q5Result
    rw [List.length_map, List.length_take]
    exact min_le_left _ _

set_option maxRecDepth 8000 in
/-- C1 counterexample: with 201 flights all resolving on the origin side,
the flight in position 201 resolves on one side yet appears in no result
row, because catalog query 5 caps the result at 200 rows. -/
theorem q5_limit_drops_resolving_flight :
    c1Flight 200 ∈ wdbQ5.flights
      ∧ originAirports wdbQ5 (c1Flight 200) ≠ []
      ∧ ∀ r ∈ q5Result wdbQ5,
          r.flight_number ≠ (c1Flight 200).flight_number := by
  refine ⟨by decide, by decide, by decide⟩

set_option maxRecDepth 8000 in
theorem q5_domestic_international_rule_witness :
    (c1Flight 0, some c1Airport, (none : Option Airport)).1 ≠ c1Ghost
      ∧ (q5Result wdbQ5).length ≤ 200 :=
  ⟨(q5_domestic_international_rule wdbQ5).2.1 c1Ghost (by decide) (by decide)
      (c1Flight 0, some c1Airport, (none : Option Airport)) (by decide),
   (q5_domestic_international_rule wdbQ5).2.2.2⟩

/-! ## C4: catalog query 7 -/

theorem q7_project_filter (db : DB) :
    (q7Filtered db).map (fun r => r.1)
      = db.airports.filter (fun ap => (arrivalsTo db ap).isEmpty) := by
  unfold q7Filtered q7Joined
  generalize db.airports = l
  induction l with
  | nil => rfl
  | cons a l ih =>
    rw [List.flatMap_cons, List.filter_append, List.map_append, ih]
    by_cases hp : (arrivalsTo db a).isEmpty = true
    · rw [List.filter_cons, if_pos hp]
      have harr : arrivalsTo db a = [] := List.isEmpty_iff.mp hp
      rw [harr]
      simp [optJoin]
    · rw [List.filter_cons, if_neg hp]
      cases harr2 : arrivalsTo db a with
      | nil => exact absurd (by rw [harr2]; rfl) hp
      | cons x xs =>
        have hblock :
            (((optJoin (x :: xs)).map (fun of => (a, of))).filter
              (fun r => r.2.isNone)) = [] := by
          simp [optJoin, List.filter_eq_nil_iff]
        rw [hblock]
        rfl

/-- C4: an airport occurring once in the airports table appears exactly
once in the no-arriving-flights result when zero flights reference its
ICAO code as destination, and never appears when at least one flight
does. -/
theorem q7_no_arriving_flights_spec (db : DB) (ap : Airport)
    (h1 : List.count ap db.airports = 1) :
    (arrivalsTo db ap = [] → List.count ap (q7Result db) = 1)
      ∧ (arrivalsTo db ap ≠ [] → List.count ap (q7Result db) = 0) := by
  constructor
  · intro harr
    unfold q7Result
    rw [(List.perm_insertionSort nameLe
        ((q7Filtered db).map (fun r => r.1))).count_eq ap,
      q7_project_filter]
    rw [List.count_filter (by rw [harr]; rfl)]
    exact h1
  · intro harr
    unfold q7Result
    rw [(List.perm_insertionSort nameLe
        ((q7Filtered db).map (fun r => r.1))).count_eq ap,
      q7_project_filter]
    rw [List.count_eq_zero]
    intro hmem
    exact harr (List.isEmpty_iff.mp (List.mem_filter.mp hmem).2)

theorem q7_no_arriving_flights_spec_witness :
    List.count apX wdbQ7.airports = 1
      ∧ List.count apX (q7Result wdbQ7) = 1
      ∧ List.count apY (q7Result wdbQ7) = 0 := by
  have h1 : List.count apX wdbQ7.airports = 1 := by decide
  exact ⟨h1, (q7_no_arriving_flights_spec wdbQ7 apX h1).1 (by decide),
    (q7_no_arriving_flights_spec wdbQ7 apY (by decide)).2 (by decide)⟩

/-! ## C10: catalog query 11 -/

/-- C10: every group row of catalog query 11 counts at least one joined
flight, because the inner join admits only airports with a matching
flight; hence the percentage denominator is never zero and the HAVING
filter keeps every group. -/
theorem q11_no_division_by_zero (db : DB) :
    (∀ r ∈ q11Pre db, 1 ≤ r.total_arrivals ∧ 1 ≤ r.pct_den)
      ∧ (q11Pre db).filter (fun r => decide (0 < r.total_arrivals))
          = q11Pre db
      ∧ ∀ r ∈ q11Result db, 1 ≤ r.total_arrivals := by
  have hpre : ∀ r ∈ q11Pre db, 1 ≤ r.total_arrivals ∧ 1 ≤ r.pct_den := by
    intro r hr
    rcases List.mem_map.mp hr with ⟨k, hk, rfl⟩
    have hk2 : k ∈ (q11Joined db).map (fun r2 => q11Key r2.1) :=
      List.mem_dedup.mp hk
    rcases List.mem_map.mp hk2 with ⟨row, hrow, hkey⟩
    have hmemf : row ∈ (q11Joined db).filter (fun r2 => q11Key r2.1 == k) :=
      List.mem_filter.mpr ⟨hrow, by simp [hkey]⟩
    have hlen := List.length_pos_of_mem hmemf
    exact ⟨hlen, hlen⟩
  refine ⟨hpre, ?_, ?_⟩
  · apply List.filter_eq_self.mpr
    intro r hr
    have h := (hpre r hr).1
    simp only [decide_eq_true_eq]
    omega
  · intro r hr
    have hr2 : r ∈ (q11Pre db).filter (fun r2 => decide (0 < r2.total_arrivals)) := by
      have hperm := List.perm_insertionSort pctDesc
        ((q11Pre db).filter (fun r2 => decide (0 < r2.total_arrivals)))
      exact hperm.mem_iff.mp hr
    exact (hpre r (List.mem_filter.mp hr2).1).1

theorem q11_no_division_by_zero_witness :
    q11RowOfKey wdbQ7 (q11Key apY) ∈ q11Pre wdbQ7
      ∧ 1 ≤ (q11RowOfKey wdbQ7 (q11Key apY)).total_arrivals
      ∧ 1 ≤ (q11RowOfKey wdbQ7 (q11Key apY)).pct_den := by
  have hm : q11RowOfKey wdbQ7 (q11Key apY) ∈ q11Pre wdbQ7 := by decide
  exact ⟨hm, ((q11_no_division_by_zero wdbQ7).1 _ hm).1,
    ((q11_no_division_by_zero wdbQ7).1 _ hm).2⟩
